import Mathlib

/-!
Verification of the GitHub API resilience core of this repository:
the token-rotation retrier (`src/common/retryer.ts`), the rank scorer
(`calculateRank`) and the access guard (`guardAccess`).

The TypeScript functions are embedded shallowly:
JavaScript objects become Lean structures with `Option` for fields that
may be `undefined`; JavaScript numbers in the rank scorer become real
numbers; asynchronous recursion in the retrier becomes well-founded
recursion on the remaining attempt budget.
-/

/-! ## Retryer data model

A GraphQL error entry `{ type?, message? }` as inspected by `retryer`. -/

/-- One entry of the `errors` array of a GraphQL response body. -/
structure GqlError where
  type : Option String := none
  message : Option String := none
deriving DecidableEq, Repr

/-- The JSON body of an upstream response, as far as `retryer` reads it:
`body.errors` and (never actually read by the code, but present in the
envelope per the spec) the quota field nested at `data.rateLimit.remaining`. -/
structure ResponseBody where
  errors : Option (List GqlError) := none
  rateLimitRemaining : Option Int := none
deriving DecidableEq, Repr

/-- A resolved fetcher response: `response.data` is the JSON body
(`response?.data?` in the source, hence `Option`). -/
structure Response where
  data : Option ResponseBody := none
deriving DecidableEq, Repr

/-- The `errors` field reached by `response?.data?.errors`. -/
def errorsOf (r : Response) : Option (List GqlError) :=
  r.data.bind ResponseBody.errors

/-- The value of `errors?.[0]?.type`. -/
def errorType (r : Response) : Option String :=
  (errorsOf r).bind (fun es => es.head?.bind GqlError.type)

/-- The value of `errors?.[0]?.message || ""`. -/
def errorMsg (r : Response) : String :=
  ((errorsOf r).bind (fun es => es.head?.bind GqlError.message)).getD ""

/-- Lowercase one ASCII letter (the case folding relevant to the
all-ASCII pattern of the `/rate limit/i` regular expression). -/
def lowerChar (c : Char) : Char :=
  if 65 ≤ c.toNat ∧ c.toNat ≤ 90 then Char.ofNat (c.toNat + 32) else c

/-- Substring test on character lists: does `needle` occur contiguously
inside `hay`? Mirrors what a `RegExp` literal-string test does. -/
def containsSub (needle : List Char) : List Char → Bool
  | [] => needle.isEmpty
  | c :: t => needle.isPrefixOf (c :: t) || containsSub needle t

/-- The test `/rate limit/i.test(s)`: case-insensitive containment of the
literal text `rate limit`. -/
def matchesRateLimit (s : String) : Bool :=
  containsSub ("rate limit".toList) (s.toList.map lowerChar)

/-- The `isRateLimited` condition of `retryer`:
`(errors && errorType === "RATE_LIMITED") || /rate limit/i.test(errorMsg)`.
An `errors` array is truthy in JavaScript whenever it is defined. -/
def isRateLimited (r : Response) : Bool :=
  ((errorsOf r).isSome && (errorType r == some ("RATE_LIMITED")))
    || matchesRateLimit (errorMsg r)

/-- Modelled from the spec: the three-signal rate-limit detection the spec
describes for the retrier (structured error type, zero-remaining quota under
`rateLimit.remaining`, or textual match). Stated for comparison with the
source-derived `isRateLimited`. -/
def specRateLimitSignal (r : Response) : Prop :=
  errorType r = some ("RATE_LIMITED")
    ∨ r.data.bind ResponseBody.rateLimitRemaining = some 0
    ∨ matchesRateLimit (errorMsg r) = true

/-- `e.response.data` of a rejected axios-style error: holds the upstream
`message` field compared against the bad-credential sentinels. -/
structure AxiosErrData where
  message : Option String := none
deriving DecidableEq, Repr

/-- `e.response` of a rejected axios-style error. -/
structure AxiosErrResponse where
  data : Option AxiosErrData := none
deriving DecidableEq, Repr

/-- A thrown JavaScript error as far as `retryer` inspects it. -/
structure JsError where
  response : Option AxiosErrResponse := none
deriving DecidableEq, Repr

/-- Outcome of one fetcher call: the promise either resolves to a response
or rejects with an error. -/
inductive FetchOutcome where
  | resolve (r : Response)
  | reject (e : JsError)
deriving DecidableEq, Repr

/-- The `CustomError.NO_TOKENS` kind. -/
def NO_TOKENS : String := "NO_TOKENS"

/-- The `CustomError.MAX_RETRY` kind. -/
def MAX_RETRY : String := "MAX_RETRY"

/-- Possible results of a `retryer` call: a returned response, a returned
HTTP error response (`return e.response`), a rethrown error, or a thrown
`CustomError` of the given kind. -/
inductive RetryerResult where
  | ok (r : Response)
  | errorResponse (r : AxiosErrResponse)
  | rethrown (e : JsError)
  | customError (kind : String)
deriving DecidableEq, Repr

/-- The `retryer` of `src/common/retryer.ts`. `RETRIES` is the credential
pool size (the number of `PAT_i` keys). The fetcher receives the 1-based
credential index standing for the token `PAT_{retries+1}` and the current
attempt counter `retries`; the query variables are captured in the fetcher
closure. Besides the result, the embedding returns the trace of
`(credential index, attempt counter)` pairs of the fetcher invocations
made, in order. -/
def retryer (RETRIES : ℕ) (fetcher : ℕ → ℕ → FetchOutcome) (retries : ℕ) :
    RetryerResult × List (ℕ × ℕ) :=
  if RETRIES = 0 then
    (RetryerResult.customError NO_TOKENS, [])
  else if _h : RETRIES < retries then
    (RetryerResult.customError MAX_RETRY, [])
  else
    match fetcher (retries + 1) retries with
    | FetchOutcome.resolve response =>
      if isRateLimited response then
        let rest := retryer RETRIES fetcher (retries + 1)
        (rest.1, (retries + 1, retries) :: rest.2)
      else
        (RetryerResult.ok response, [(retries + 1, retries)])
    | FetchOutcome.reject e =>
      match e.response with
      | none => (RetryerResult.rethrown e, [(retries + 1, retries)])
      | some resp =>
        if resp.data.bind AxiosErrData.message = some ("Bad credentials")
            ∨ resp.data.bind AxiosErrData.message
                = some ("Sorry. Your account was suspended.") then
          let rest := retryer RETRIES fetcher (retries + 1)
          (rest.1, (retries + 1, retries) :: rest.2)
        else
          (RetryerResult.errorResponse resp, [(retries + 1, retries)])
termination_by RETRIES + 1 - retries
decreasing_by
  all_goals omega

/-! ## Concrete responses used as test fixtures -/

/-- A response carrying a structured `RATE_LIMITED` error entry. -/
def rlResp : Response :=
  { data := some { errors := some ([{ type := some ("RATE_LIMITED") }]) } }

/-- A response with no error entries whose body carries a zero
`rateLimit.remaining` quota field. -/
def zeroRemResp : Response :=
  { data := some { errors := none, rateLimitRemaining := some 0 } }

/-- A response whose first error entry is not a rate-limit signal while a
later entry is a structured `RATE_LIMITED` error. -/
def mixedResp : Response :=
  { data := some { errors := some (
      [{ type := some ("NOT_FOUND"), message := some ("Could not resolve") },
       { type := some ("RATE_LIMITED") }]) } }

/-! ## Retryer lemmas -/

/-- Helper: under an always-rate-limited fetcher, a call with `retries + k =
N + 1` performs exactly `k` further invocations and ends in `MAX_RETRY`. -/
theorem retryer_rl_aux (N : ℕ) (f : ℕ → ℕ → FetchOutcome) (hN : N ≠ 0)
    (hf : ∀ i j, ∃ r, f i j = FetchOutcome.resolve r ∧ isRateLimited r = true) :
    ∀ (k retries : ℕ), retries + k = N + 1 →
      retryer N f retries
        = (RetryerResult.customError MAX_RETRY,
           (List.range k).map (fun i => (retries + i + 1, retries + i))) := by
  intro k
  induction k with
  | zero =>
    intro retries hr
    rw [retryer]
    simp only [hN, if_false]
    rw [dif_pos (by omega)]
    simp
  | succ k ih =>
    intro retries hr
    obtain ⟨r, hfr, hrl⟩ := hf (retries + 1) retries
    rw [retryer]
    simp only [hN, if_false]
    rw [dif_neg (by omega)]
    rw [hfr]
    simp only [hrl, if_true]
    rw [ih (retries + 1) (by omega)]
    rw [List.range_succ_eq_map]
    simp [List.map_map, Function.comp]
    intro a _
    omega

/-- C2: for a pool of `N ≥ 1` credentials and a fetch operation that signals
rate limiting on every call, `retryer` invokes the operation exactly `N + 1`
times, attempt `i` using credential index `i + 1` for `i = 0 .. N`, and then
raises the `MAX_RETRY` (`EXHAUSTED`) error. -/
theorem retryer_exhausts_after_pool (N : ℕ) (f : ℕ → ℕ → FetchOutcome)
    (hN : 1 ≤ N)
    (hf : ∀ i j, ∃ r, f i j = FetchOutcome.resolve r ∧ isRateLimited r = true) :
    retryer N f 0
      = (RetryerResult.customError MAX_RETRY,
         (List.range (N + 1)).map (fun i => (i + 1, i)))
      ∧ (retryer N f 0).2.length = N + 1 := by
  have h := retryer_rl_aux N f (by omega) hf (N + 1) 0 (by omega)
  constructor
  · simpa using h
  · rw [h]
    simp

/-- Witness for C2 at the concrete pool size 1 and the constant
rate-limited fetcher: two invocations, with credentials 1 and 2, then
`MAX_RETRY`. -/
theorem retryer_exhausts_after_pool_witness :
    retryer 1 (fun _ _ => FetchOutcome.resolve rlResp) 0
      = (RetryerResult.customError MAX_RETRY, [(1, 0), (2, 1)])
      ∧ (retryer 1 (fun _ _ => FetchOutcome.resolve rlResp) 0).2.length = 2 := by
  have h := retryer_exhausts_after_pool 1 (fun _ _ => FetchOutcome.resolve rlResp)
    (by decide) (fun i j => ⟨rlResp, rfl, by decide⟩)
  constructor
  · rw [h.1]
    decide
  · exact h.2

/-- C3: with an empty credential pool, `retryer` fails immediately with the
`NO_TOKENS` (`NO_CREDENTIALS`) kind, for every fetch operation (hence every
captured variables value) and every starting attempt counter, invoking the
operation zero times; and this kind is distinct from `MAX_RETRY`
(`EXHAUSTED`). -/
theorem retryer_no_tokens_fast_fail :
    (∀ (f : ℕ → ℕ → FetchOutcome) (retries : ℕ),
        retryer 0 f retries = (RetryerResult.customError NO_TOKENS, []))
      ∧ NO_TOKENS ≠ MAX_RETRY := by
  constructor
  · intro f r
    rw [retryer]
    simp
  · decide

/-- C1 (amended): a response returned by the fetch operation is treated as
rate-limited — logged-and-retried with the next credential — precisely when
the structured first-error type equals `RATE_LIMITED` (with a defined errors
array) or the first error message contains `rate limit` case-insensitively;
the `rateLimit.remaining` quota field is not part of the decision. -/
theorem retryer_rate_limit_detection (N : ℕ) (f : ℕ → ℕ → FetchOutcome)
    (retries : ℕ) (r : Response) (hN : N ≠ 0) (hr : ¬ N < retries)
    (hf : f (retries + 1) retries = FetchOutcome.resolve r) :
    (isRateLimited r = true ↔
        ((errorsOf r).isSome = true ∧ errorType r = some ("RATE_LIMITED"))
          ∨ matchesRateLimit (errorMsg r) = true)
      ∧ (isRateLimited r = true →
          retryer N f retries
            = ((retryer N f (retries + 1)).1,
               (retries + 1, retries) :: (retryer N f (retries + 1)).2))
      ∧ (isRateLimited r = false →
          retryer N f retries = (RetryerResult.ok r, [(retries + 1, retries)])) := by
  refine ⟨?_, ?_, ?_⟩
  · simp [isRateLimited, Bool.or_eq_true, Bool.and_eq_true, beq_iff_eq]
  · intro hrl
    rw [retryer]
    simp [hN, hr, hf, hrl]
  · intro hrl
    rw [retryer]
    simp [hN, hr, hf, hrl]

/-- Witness for the amended C1: a structured `RATE_LIMITED` response is
retried with the next credential. -/
theorem retryer_rate_limit_detection_witness :
    retryer 1 (fun _ _ => FetchOutcome.resolve rlResp) 0
      = ((retryer 1 (fun _ _ => FetchOutcome.resolve rlResp) 1).1,
         (1, 0) :: (retryer 1 (fun _ _ => FetchOutcome.resolve rlResp) 1).2) :=
  (retryer_rate_limit_detection 1 (fun _ _ => FetchOutcome.resolve rlResp) 0
    rlResp (by decide) (by decide) rfl).2.1 (by decide)

/-- C1 counterexample: a response whose only rate-limit indication is the
zero `rateLimit.remaining` quota field satisfies the spec's three-signal
predicate, yet the code does not treat it as rate-limited: `retryer` returns
it unchanged after a single invocation. -/
theorem retryer_zero_remaining_not_detected :
    ¬ (isRateLimited zeroRemResp = true ↔ specRateLimitSignal zeroRemResp)
      ∧ retryer 1 (fun _ _ => FetchOutcome.resolve zeroRemResp) 0
          = (RetryerResult.ok zeroRemResp, [(1, 0)]) := by
  constructor
  · intro h
    have hs : specRateLimitSignal zeroRemResp := Or.inr (Or.inl rfl)
    have : isRateLimited zeroRemResp = true := h.mpr hs
    exact absurd this (by decide)
  · exact (retryer_rate_limit_detection 1 (fun _ _ => FetchOutcome.resolve zeroRemResp)
      0 zeroRemResp (by decide) (by decide) rfl).2.2 (by decide)

/-- C10: rate-limit detection reads only the first entry of the errors
array: whenever the first entry's type is not `RATE_LIMITED` and its message
does not contain `rate limit` (case-insensitive), the response is returned
unchanged after a single invocation — no matter what later entries (here an
arbitrary `rest`) contain. -/
theorem retryer_first_error_entry_only (N : ℕ) (f : ℕ → ℕ → FetchOutcome)
    (retries : ℕ) (r : Response) (e : GqlError) (rest : List GqlError)
    (hN : N ≠ 0) (hr : ¬ N < retries)
    (hf : f (retries + 1) retries = FetchOutcome.resolve r)
    (he : errorsOf r = some (e :: rest))
    (ht : e.type ≠ some ("RATE_LIMITED"))
    (hm : matchesRateLimit (e.message.getD "") = false) :
    retryer N f retries = (RetryerResult.ok r, [(retries + 1, retries)]) := by
  have hty : errorType r = e.type := by
    simp [errorType, he]
  have hms : errorMsg r = e.message.getD "" := by
    simp [errorMsg, he]
  have hrl : isRateLimited r = false := by
    simp only [isRateLimited, hty, hms, hm, Bool.or_false]
    simp [ht]
  rw [retryer]
  simp [hN, hr, hf, hrl]

/-- Witness for C10: a response whose first error entry is `NOT_FOUND`-like
is returned unchanged even though its second entry is `RATE_LIMITED`. -/
theorem retryer_first_error_entry_only_witness :
    retryer 2 (fun _ _ => FetchOutcome.resolve mixedResp) 0
      = (RetryerResult.ok mixedResp, [(1, 0)]) :=
  retryer_first_error_entry_only 2 (fun _ _ => FetchOutcome.resolve mixedResp)
    0 mixedResp
    { type := some ("NOT_FOUND"), message := some ("Could not resolve") }
    [{ type := some ("RATE_LIMITED") }]
    (by decide) (by decide) rfl rfl (by decide) (by decide)

/-! ## Access guard (`guardAccess`) -/

/-- The fixed deny-list of `src/common/blacklist.ts`. -/
def blacklist : List String :=
  ["renovate-bot", "technote-space", "sw-yx", "YourUsername", "[YourUsername]"]

/-- The resource kinds accepted by `guardAccess`. The invalid-kind throw of
the source is unreachable here because the embedding types the kind. -/
inductive TipoRecurso where
  | username
  | gist
  | wakatime
deriving DecidableEq, Repr

/-- Environment-derived allow-lists of `src/common/envs.ts`: `undefined`
(no list configured) is `none`, a configured comma-separated list is
`some`. -/
structure AccessConfig where
  whitelist : Option (List String)
  gistWhitelist : Option (List String)
deriving DecidableEq, Repr

/-- The decision of `guardAccess`: passed, or blocked with the rendered
error distinguishing the not-whitelisted and blacklisted reasons. -/
inductive ResultadoAcesso where
  | passed
  | notWhitelisted
  | blacklisted
deriving DecidableEq, Repr

/-- The allow-list selected by `guardAccess`:
`type === "gist" ? gistWhitelist : whitelist`. -/
def currentWhitelistFor (cfg : AccessConfig) (type : TipoRecurso) :
    Option (List String) :=
  if type = TipoRecurso.gist then cfg.gistWhitelist else cfg.whitelist

/-- The `guardAccess` of `src/common/access.ts`, as the pure access
decision (the HTTP error-card rendering it triggers is out of scope).
`Array.isArray(currentWhitelist)` is `isSome` on this model, and the
JavaScript short-circuit `&&` protects the `includes` call exactly as the
`Option.getD` does here. -/
def guardAccess (cfg : AccessConfig) (id : String) (type : TipoRecurso) :
    ResultadoAcesso :=
  let currentWhitelist := currentWhitelistFor cfg type
  if currentWhitelist.isSome = true ∧ id ∉ currentWhitelist.getD [] then
    ResultadoAcesso.notWhitelisted
  else if type = TipoRecurso.username ∧ currentWhitelist = none
      ∧ id ∈ blacklist then
    ResultadoAcesso.blacklisted
  else
    ResultadoAcesso.passed

/-- C7: whenever the allow-list selected for the requested kind is
configured, access is granted exactly to the identifiers appearing verbatim
in it; absent identifiers are rejected as not-whitelisted; and the
deny-list is never consulted, so a blacklisted identifier inside the
allow-list is still allowed. -/
theorem guardAccess_whitelist_precedence (cfg : AccessConfig) (id : String)
    (type : TipoRecurso) (wl : List String)
    (hwl : currentWhitelistFor cfg type = some wl) :
    (guardAccess cfg id type = ResultadoAcesso.passed ↔ id ∈ wl)
      ∧ (id ∉ wl → guardAccess cfg id type = ResultadoAcesso.notWhitelisted)
      ∧ (id ∈ blacklist → id ∈ wl →
          guardAccess cfg id type = ResultadoAcesso.passed) := by
  have hmain : ∀ hid : id ∈ wl,
      guardAccess cfg id type = ResultadoAcesso.passed := by
    intro hid
    unfold guardAccess
    rw [hwl]
    simp [hid]
  refine ⟨⟨?_, hmain⟩, ?_, fun _ => hmain⟩
  · intro hpass
    by_contra hid
    have : guardAccess cfg id type = ResultadoAcesso.notWhitelisted := by
      unfold guardAccess
      rw [hwl]
      simp [hid]
    rw [this] at hpass
    exact absurd hpass (by decide)
  · intro hid
    unfold guardAccess
    rw [hwl]
    simp [hid]

/-- Witness for C7: `sw-yx` is in the fixed deny-list, but with an
allow-list configured that contains it, access is granted. -/
theorem guardAccess_whitelist_precedence_witness :
    (guardAccess { whitelist := some (["sw-yx"]), gistWhitelist := none }
        "sw-yx" TipoRecurso.username = ResultadoAcesso.passed ↔
      "sw-yx" ∈ (["sw-yx"] : List String))
      ∧ ("sw-yx" ∉ (["sw-yx"] : List String) →
          guardAccess { whitelist := some (["sw-yx"]), gistWhitelist := none }
            "sw-yx" TipoRecurso.username = ResultadoAcesso.notWhitelisted)
      ∧ ("sw-yx" ∈ blacklist → "sw-yx" ∈ (["sw-yx"] : List String) →
          guardAccess { whitelist := some (["sw-yx"]), gistWhitelist := none }
            "sw-yx" TipoRecurso.username = ResultadoAcesso.passed) :=
  guardAccess_whitelist_precedence
    { whitelist := some (["sw-yx"]), gistWhitelist := none }
    "sw-yx" TipoRecurso.username ["sw-yx"] rfl

/-- C8: with no allow-list configured, the request is rejected as
blacklisted exactly when the kind is `username` and the identifier is in
the fixed deny-list; gist and wakatime requests always pass. -/
theorem guardAccess_default_open (cfg : AccessConfig) (id : String)
    (type : TipoRecurso) (hw : cfg.whitelist = none)
    (hg : cfg.gistWhitelist = none) :
    (guardAccess cfg id type = ResultadoAcesso.blacklisted ↔
        type = TipoRecurso.username ∧ id ∈ blacklist)
      ∧ (type = TipoRecurso.gist ∨ type = TipoRecurso.wakatime →
          guardAccess cfg id type = ResultadoAcesso.passed)
      ∧ (guardAccess cfg id type ≠ ResultadoAcesso.blacklisted →
          guardAccess cfg id type = ResultadoAcesso.passed) := by
  have hnone : currentWhitelistFor cfg type = none := by
    unfold currentWhitelistFor
    rw [hw, hg]
    simp
  by_cases hu : type = TipoRecurso.username ∧ id ∈ blacklist
  · have hb : guardAccess cfg id type = ResultadoAcesso.blacklisted := by
      unfold guardAccess
      rw [hnone]
      simp [hu.1, hu.2]
    refine ⟨⟨fun _ => hu, fun _ => hb⟩, ?_, fun hne => absurd hb hne⟩
    intro hk
    rcases hk with hk | hk <;> rw [hk] at hu <;> exact absurd hu.1 (by decide)
  · have hp : guardAccess cfg id type = ResultadoAcesso.passed := by
      unfold guardAccess
      rw [hnone]
      simp only [Option.isSome_none, Bool.false_eq_true, false_and, if_false]
      rw [if_neg]
      intro hcon
      exact hu ⟨hcon.1, hcon.2.2⟩
    refine ⟨by simp [hp, hu], fun _ => hp, fun _ => hp⟩

/-- Witness for C8: with both allow-lists absent, the deny-listed username
`sw-yx` is rejected as blacklisted, while gist and wakatime identifiers
pass. -/
theorem guardAccess_default_open_witness :
    (guardAccess { whitelist := none, gistWhitelist := none } "sw-yx"
        TipoRecurso.username = ResultadoAcesso.blacklisted ↔
      TipoRecurso.username = TipoRecurso.username ∧ "sw-yx" ∈ blacklist)
      ∧ (TipoRecurso.username = TipoRecurso.gist
          ∨ TipoRecurso.username = TipoRecurso.wakatime →
          guardAccess { whitelist := none, gistWhitelist := none } "sw-yx"
            TipoRecurso.username = ResultadoAcesso.passed)
      ∧ (guardAccess { whitelist := none, gistWhitelist := none } "sw-yx"
            TipoRecurso.username ≠ ResultadoAcesso.blacklisted →
          guardAccess { whitelist := none, gistWhitelist := none } "sw-yx"
            TipoRecurso.username = ResultadoAcesso.passed) :=
  guardAccess_default_open { whitelist := none, gistWhitelist := none }
    "sw-yx" TipoRecurso.username rfl rfl

/-! ## Rank scorer (`calculateRank`)

JavaScript floating-point numbers are modelled by real numbers; all the
constants of the algorithm are exact, and each claim settled below holds
with a margin far larger than double-precision rounding. -/

/-- The exponential CDF `1 - 2 ** -x` of the source. -/
noncomputable def exponential_cdf (x : ℝ) : ℝ := 1 - (2 : ℝ) ^ (-x)

/-- The log-normal CDF approximation `x / (1 + x)` of the source. -/
noncomputable def log_normal_cdf (x : ℝ) : ℝ := x / (1 + x)

/-- The input of `calculateRank` (`repos` is accepted but unused). -/
structure ParamsCalcularRank where
  all_commits : Bool
  commits : ℝ
  prs : ℝ
  issues : ℝ
  reviews : ℝ
  repos : ℝ
  stars : ℝ
  followers : ℝ

/-- The result of `calculateRank`. `level` is an `Option` because the
JavaScript `LEVELS[idx]` yields `undefined` when `findIndex` misses. -/
structure ResultadoRank where
  level : Option String
  percentile : ℝ

/-- The percentile thresholds of the source, in ascending order. -/
noncomputable def THRESHOLDS : List ℝ :=
  [1, 12.5, 25, 37.5, 50, 62.5, 75, 87.5, 100]

/-- The rank levels of the source, index-aligned with `THRESHOLDS`. -/
def LEVELS : List String := ["S", "A+", "A", "A-", "B+", "B", "B-", "C+", "C"]

open Classical in
/-- The tier lookup `LEVELS[THRESHOLDS.findIndex((t) => x <= t)]` applied
to a percentile `x`. A missed `findIndex` returns `-1` and indexing with it
yields `undefined`, which is `none` here. -/
noncomputable def levelLookup (x : ℝ) : Option String :=
  LEVELS[THRESHOLDS.findIdx (fun t => decide (x ≤ t))]?

/-- The weighted rank value of `calculateRank` (the local `rank` of the
source, before the `* 100` percentile scaling). -/
noncomputable def rankValue (p : ParamsCalcularRank) : ℝ :=
  let COMMITS_MEDIAN : ℝ := if p.all_commits then 1000 else 250
  let COMMITS_WEIGHT : ℝ := 2
  let PRS_MEDIAN : ℝ := 50
  let PRS_WEIGHT : ℝ := 3
  let ISSUES_MEDIAN : ℝ := 25
  let ISSUES_WEIGHT : ℝ := 1
  let REVIEWS_MEDIAN : ℝ := 2
  let REVIEWS_WEIGHT : ℝ := 1
  let STARS_MEDIAN : ℝ := 50
  let STARS_WEIGHT : ℝ := 4
  let FOLLOWERS_MEDIAN : ℝ := 10
  let FOLLOWERS_WEIGHT : ℝ := 1
  let TOTAL_WEIGHT := COMMITS_WEIGHT + PRS_WEIGHT + ISSUES_WEIGHT
    + REVIEWS_WEIGHT + STARS_WEIGHT + FOLLOWERS_WEIGHT
  1 - (COMMITS_WEIGHT * exponential_cdf (p.commits / COMMITS_MEDIAN)
    + PRS_WEIGHT * exponential_cdf (p.prs / PRS_MEDIAN)
    + ISSUES_WEIGHT * exponential_cdf (p.issues / ISSUES_MEDIAN)
    + REVIEWS_WEIGHT * exponential_cdf (p.reviews / REVIEWS_MEDIAN)
    + STARS_WEIGHT * log_normal_cdf (p.stars / STARS_MEDIAN)
    + FOLLOWERS_WEIGHT * log_normal_cdf (p.followers / FOLLOWERS_MEDIAN))
    / TOTAL_WEIGHT

/-- The `calculateRank` of the source: pairs the percentile `rank * 100`
with the tier looked up from the threshold table. -/
noncomputable def calculateRank (p : ParamsCalcularRank) : ResultadoRank :=
  { level := levelLookup (rankValue p * 100), percentile := rankValue p * 100 }

/-- Projection of `calculateRank` on the percentile. -/
theorem calculateRank_percentile (p : ParamsCalcularRank) :
    (calculateRank p).percentile = rankValue p * 100 := rfl

/-- Projection of `calculateRank` on the level. -/
theorem calculateRank_level (p : ParamsCalcularRank) :
    (calculateRank p).level = levelLookup (rankValue p * 100) := rfl

/-- The rank value with the weights and medians written out. -/
theorem rankValue_eq (p : ParamsCalcularRank) :
    rankValue p
      = 1 - (2 * exponential_cdf (p.commits / (if p.all_commits then 1000 else 250))
        + 3 * exponential_cdf (p.prs / 50)
        + 1 * exponential_cdf (p.issues / 25)
        + 1 * exponential_cdf (p.reviews / 2)
        + 4 * log_normal_cdf (p.stars / 50)
        + 1 * log_normal_cdf (p.followers / 10)) / 12 := by
  simp only [rankValue]
  norm_num

/-! ## Arithmetic facts about the CDFs -/

/-- Negative natural powers of two under `rpow`. -/
theorem two_rpow_neg_nat (n : ℕ) : (2 : ℝ) ^ (-(n : ℝ)) = ((2 : ℝ) ^ n)⁻¹ := by
  rw [Real.rpow_neg (by norm_num), Real.rpow_natCast]

/-- The exponential CDF at a natural number. -/
theorem exponential_cdf_nat (n : ℕ) :
    exponential_cdf (n : ℝ) = 1 - ((2 : ℝ) ^ n)⁻¹ := by
  rw [exponential_cdf, two_rpow_neg_nat]

/-- The exponential CDF vanishes at zero. -/
theorem exponential_cdf_zero : exponential_cdf 0 = 0 := by
  rw [exponential_cdf, neg_zero, Real.rpow_zero]
  norm_num

/-- The exponential CDF is nonnegative on nonnegative inputs. -/
theorem exponential_cdf_nonneg (x : ℝ) (hx : 0 ≤ x) :
    0 ≤ exponential_cdf x := by
  have h1 : (2 : ℝ) ^ (-x) ≤ 1 :=
    Real.rpow_le_one_of_one_le_of_nonpos (by norm_num) (by linarith)
  rw [exponential_cdf]
  linarith

/-- The exponential CDF stays below one everywhere. -/
theorem exponential_cdf_lt_one (x : ℝ) : exponential_cdf x < 1 := by
  have h : 0 < (2 : ℝ) ^ (-x) := Real.rpow_pos_of_pos (by norm_num) _
  rw [exponential_cdf]
  linarith

/-- The log-normal CDF is nonnegative on nonnegative inputs. -/
theorem log_normal_cdf_nonneg (x : ℝ) (hx : 0 ≤ x) :
    0 ≤ log_normal_cdf x :=
  div_nonneg hx (by linarith)

/-- The log-normal CDF stays below one on nonnegative inputs. -/
theorem log_normal_cdf_lt_one (x : ℝ) (hx : 0 ≤ x) :
    log_normal_cdf x < 1 := by
  rw [log_normal_cdf, div_lt_one (by linarith)]
  linarith

/-- The log-normal CDF is monotone on the nonnegative axis. -/
theorem log_normal_cdf_mono (x y : ℝ) (hx : 0 ≤ x) (hxy : x ≤ y) :
    log_normal_cdf x ≤ log_normal_cdf y := by
  rw [log_normal_cdf, log_normal_cdf,
    div_le_div_iff₀ (by linarith) (by linarith)]
  nlinarith

/-! ## Tier lookup on the fixed threshold table -/

/-- Tier lookup in the `(12.5, 25]` bucket. -/
theorem levelLookup_A (x : ℝ) (h1 : ¬ x ≤ 12.5) (h2 : x ≤ 25) :
    levelLookup x = some ("A") := by
  have h0 : ¬ x ≤ 1 := fun h => h1 (by linarith)
  unfold levelLookup THRESHOLDS LEVELS
  simp only [List.findIdx_cons]
  rw [decide_eq_false h0, decide_eq_false h1, decide_eq_true h2]
  rfl

/-- Tier lookup in the `(87.5, 100]` bucket. -/
theorem levelLookup_C (x : ℝ) (h1 : ¬ x ≤ 87.5) (h2 : x ≤ 100) :
    levelLookup x = some ("C") := by
  have h0 : ¬ x ≤ 1 := fun h => h1 (by linarith)
  have ha : ¬ x ≤ 12.5 := fun h => h1 (by linarith)
  have hb : ¬ x ≤ 25 := fun h => h1 (by linarith)
  have hc : ¬ x ≤ 37.5 := fun h => h1 (by linarith)
  have hd : ¬ x ≤ 50 := fun h => h1 (by linarith)
  have he : ¬ x ≤ 62.5 := fun h => h1 (by linarith)
  have hf : ¬ x ≤ 75 := fun h => h1 (by linarith)
  unfold levelLookup THRESHOLDS LEVELS
  simp only [List.findIdx_cons]
  rw [decide_eq_false h0, decide_eq_false ha, decide_eq_false hb,
    decide_eq_false hc, decide_eq_false hd, decide_eq_false he,
    decide_eq_false hf, decide_eq_false h1, decide_eq_true h2]
  rfl

/-- Any percentile at most 100 hits a defined tier, one of the nine. -/
theorem levelLookup_mem (x : ℝ) (h : x ≤ 100) :
    ∃ l, levelLookup x = some l ∧ l ∈ LEVELS := by
  have hlt : THRESHOLDS.findIdx (fun t => decide (x ≤ t)) < THRESHOLDS.length := by
    apply List.findIdx_lt_length_of_exists
    refine ⟨100, ?_, by simpa using h⟩
    unfold THRESHOLDS
    simp
  have hlen : THRESHOLDS.findIdx (fun t => decide (x ≤ t)) < LEVELS.length := by
    simpa [THRESHOLDS, LEVELS] using hlt
  refine ⟨LEVELS[THRESHOLDS.findIdx (fun t => decide (x ≤ t))], ?_, ?_⟩
  · unfold levelLookup
    exact List.getElem?_eq_getElem hlen
  · exact List.getElem_mem hlen

/-! ## Rank fixtures -/

/-- The regression fixture of the spec: commits 500, prs 100, issues 50,
reviews 30, stars 200, followers 150, `all_commits` off. -/
def input4 : ParamsCalcularRank :=
  { all_commits := false, commits := 500, prs := 100, issues := 50,
    reviews := 30, repos := 20, stars := 200, followers := 150 }

/-- The all-zero input, for either commit-counting mode. -/
def zeroInput (b : Bool) : ParamsCalcularRank :=
  { all_commits := b, commits := 0, prs := 0, issues := 0,
    reviews := 0, repos := 0, stars := 0, followers := 0 }

/-- The all-zero input with stars at `-100`. -/
def negStarsInput : ParamsCalcularRank :=
  { all_commits := false, commits := 0, prs := 0, issues := 0,
    reviews := 0, repos := 0, stars := -100, followers := 0 }

/-- The all-zero input with stars at `-51`, which drives the log-normal
term past its pole. -/
def wildStarsInput : ParamsCalcularRank :=
  { all_commits := false, commits := 0, prs := 0, issues := 0,
    reviews := 0, repos := 0, stars := -51, followers := 0 }

/-- Exact percentile of the regression fixture:
`1935385 / 98304 ≈ 19.6878`. -/
theorem calculateRank_input4_percentile :
    (calculateRank input4).percentile = 1935385 / 98304 := by
  have h2a : exponential_cdf ((500 : ℝ) / 250) = 3 / 4 := by
    rw [show ((500 : ℝ) / 250) = ((2 : ℕ) : ℝ) by norm_num, exponential_cdf_nat]
    norm_num
  have h2b : exponential_cdf ((100 : ℝ) / 50) = 3 / 4 := by
    rw [show ((100 : ℝ) / 50) = ((2 : ℕ) : ℝ) by norm_num, exponential_cdf_nat]
    norm_num
  have h2c : exponential_cdf ((50 : ℝ) / 25) = 3 / 4 := by
    rw [show ((50 : ℝ) / 25) = ((2 : ℕ) : ℝ) by norm_num, exponential_cdf_nat]
    norm_num
  have h15 : exponential_cdf ((30 : ℝ) / 2) = 32767 / 32768 := by
    rw [show ((30 : ℝ) / 2) = ((15 : ℕ) : ℝ) by norm_num, exponential_cdf_nat]
    norm_num
  have hst : log_normal_cdf ((200 : ℝ) / 50) = 4 / 5 := by
    rw [log_normal_cdf]
    norm_num
  have hfo : log_normal_cdf ((150 : ℝ) / 10) = 15 / 16 := by
    rw [log_normal_cdf]
    norm_num
  rw [calculateRank_percentile, rankValue_eq]
  simp only [input4, Bool.false_eq_true, if_false]
  rw [h2a, h2b, h2c, h15, hst, hfo]
  norm_num

/-- C4 counterexample: on the regression fixture the percentile is not
under 15 (it is `1935385 / 98304 ≈ 19.69`). -/
theorem calculateRank_input4_not_under_15 :
    ¬ ((calculateRank input4).percentile < 15) := by
  rw [calculateRank_input4_percentile]
  norm_num

/-- C4 (amended): on the regression fixture `calculateRank` returns level
`A` — which lies in the `{S, A+, A}` range — with the exact percentile
`1935385 / 98304`, strictly under 25 (but above 15). -/
theorem calculateRank_input4_result :
    (calculateRank input4).level = some ("A")
      ∧ "A" ∈ (["S", "A+", "A"] : List String)
      ∧ (calculateRank input4).percentile = 1935385 / 98304
      ∧ 12.5 < (calculateRank input4).percentile
      ∧ (calculateRank input4).percentile < 25 := by
  have hp : rankValue input4 * 100 = 1935385 / 98304 :=
    calculateRank_input4_percentile
  refine ⟨?_, by simp, calculateRank_input4_percentile, ?_, ?_⟩
  · rw [calculateRank_level, hp]
    apply levelLookup_A <;> norm_num
  · rw [calculateRank_input4_percentile]
    norm_num
  · rw [calculateRank_input4_percentile]
    norm_num

/-- C5: the all-zero input produces the worst tier `C` with percentile
exactly 100, for either value of `all_commits`. -/
theorem calculateRank_all_zero (b : Bool) :
    (calculateRank (zeroInput b)).level = some ("C")
      ∧ (calculateRank (zeroInput b)).percentile = 100 := by
  have hl : log_normal_cdf (0 : ℝ) = 0 := by
    rw [log_normal_cdf]
    norm_num
  have hr : rankValue (zeroInput b) * 100 = 100 := by
    rw [rankValue_eq]
    simp only [zeroInput, zero_div, exponential_cdf_zero]
    rw [hl]
    norm_num
  constructor
  · rw [calculateRank_level, hr]
    exact levelLookup_C 100 (by norm_num) le_rfl
  · rw [calculateRank_percentile, hr]

/-- C6 (amended): with all other fields fixed and a nonnegative starting
stars value, increasing stars never increases (worsens) the percentile. -/
theorem calculateRank_stars_mono (a b : ParamsCalcularRank)
    (hac : a.all_commits = b.all_commits) (hc : a.commits = b.commits)
    (hp : a.prs = b.prs) (hi : a.issues = b.issues)
    (hr : a.reviews = b.reviews) (hf : a.followers = b.followers)
    (hs0 : 0 ≤ a.stars) (hs : a.stars ≤ b.stars) :
    (calculateRank b).percentile ≤ (calculateRank a).percentile := by
  have hm : log_normal_cdf (a.stars / 50) ≤ log_normal_cdf (b.stars / 50) :=
    log_normal_cdf_mono _ _ (by linarith) (by linarith)
  rw [calculateRank_percentile, calculateRank_percentile,
    rankValue_eq, rankValue_eq, hac, hc, hp, hi, hr, hf]
  linarith

/-- Witness for the amended C6 at stars 5 versus 7 on otherwise zero
fields. -/
theorem calculateRank_stars_mono_witness :
    (calculateRank { zeroInput false with stars := 7 }).percentile
      ≤ (calculateRank { zeroInput false with stars := 5 }).percentile :=
  calculateRank_stars_mono
    { zeroInput false with stars := 5 } { zeroInput false with stars := 7 }
    rfl rfl rfl rfl rfl rfl (by norm_num) (by norm_num)

/-- C6 counterexample: over the full (signed) input domain the claim
fails — raising stars from `-100` to `0` with every other field unchanged
strictly increases (worsens) the percentile, from `100/3` to `100`. -/
theorem calculateRank_stars_not_mono :
    negStarsInput.stars < (zeroInput false).stars
      ∧ negStarsInput.all_commits = (zeroInput false).all_commits
      ∧ negStarsInput.commits = (zeroInput false).commits
      ∧ negStarsInput.prs = (zeroInput false).prs
      ∧ negStarsInput.issues = (zeroInput false).issues
      ∧ negStarsInput.reviews = (zeroInput false).reviews
      ∧ negStarsInput.followers = (zeroInput false).followers
      ∧ (calculateRank negStarsInput).percentile
          < (calculateRank (zeroInput false)).percentile := by
  have hzero : (calculateRank (zeroInput false)).percentile = 100 :=
    (calculateRank_all_zero false).2
  have hl : log_normal_cdf (0 : ℝ) = 0 := by
    rw [log_normal_cdf]
    norm_num
  have hs : log_normal_cdf ((-100 : ℝ) / 50) = 2 := by
    rw [log_normal_cdf]
    norm_num
  have hneg : (calculateRank negStarsInput).percentile = 100 / 3 := by
    rw [calculateRank_percentile, rankValue_eq]
    simp only [negStarsInput, zero_div, exponential_cdf_zero]
    rw [hs, hl]
    norm_num
  refine ⟨by norm_num [negStarsInput, zeroInput], rfl, rfl, rfl, rfl, rfl, rfl, ?_⟩
  rw [hzero, hneg]
  norm_num

/-- C9 (amended): on nonnegative inputs (arbitrary `repos` and either
commit mode) `calculateRank` always produces a defined level among the
nine tier strings and a percentile in `(0, 100] ⊆ [0, 100]`. -/
theorem calculateRank_total_on_nonneg (p : ParamsCalcularRank)
    (hc : 0 ≤ p.commits) (hp : 0 ≤ p.prs) (hi : 0 ≤ p.issues)
    (hr : 0 ≤ p.reviews) (hs : 0 ≤ p.stars) (hf : 0 ≤ p.followers) :
    (∃ l, (calculateRank p).level = some l ∧ l ∈ LEVELS)
      ∧ 0 < (calculateRank p).percentile
      ∧ (calculateRank p).percentile ≤ 100 := by
  have hmed : (0 : ℝ) < (if p.all_commits then (1000 : ℝ) else 250) := by
    split <;> norm_num
  have h1a : 0 ≤ exponential_cdf (p.commits / (if p.all_commits then 1000 else 250)) :=
    exponential_cdf_nonneg _ (div_nonneg hc hmed.le)
  have h1b : exponential_cdf (p.commits / (if p.all_commits then 1000 else 250)) < 1 :=
    exponential_cdf_lt_one _
  have h2a : 0 ≤ exponential_cdf (p.prs / 50) :=
    exponential_cdf_nonneg _ (by positivity)
  have h2b : exponential_cdf (p.prs / 50) < 1 := exponential_cdf_lt_one _
  have h3a : 0 ≤ exponential_cdf (p.issues / 25) :=
    exponential_cdf_nonneg _ (by positivity)
  have h3b : exponential_cdf (p.issues / 25) < 1 := exponential_cdf_lt_one _
  have h4a : 0 ≤ exponential_cdf (p.reviews / 2) :=
    exponential_cdf_nonneg _ (by positivity)
  have h4b : exponential_cdf (p.reviews / 2) < 1 := exponential_cdf_lt_one _
  have h5a : 0 ≤ log_normal_cdf (p.stars / 50) :=
    log_normal_cdf_nonneg _ (by positivity)
  have h5b : log_normal_cdf (p.stars / 50) < 1 :=
    log_normal_cdf_lt_one _ (by positivity)
  have h6a : 0 ≤ log_normal_cdf (p.followers / 10) :=
    log_normal_cdf_nonneg _ (by positivity)
  have h6b : log_normal_cdf (p.followers / 10) < 1 :=
    log_normal_cdf_lt_one _ (by positivity)
  have hlow : 0 < rankValue p * 100 := by
    rw [rankValue_eq]
    linarith
  have hhigh : rankValue p * 100 ≤ 100 := by
    rw [rankValue_eq]
    linarith
  refine ⟨?_, ?_, ?_⟩
  · rw [calculateRank_level]
    exact levelLookup_mem _ hhigh
  · rw [calculateRank_percentile]
    exact hlow
  · rw [calculateRank_percentile]
    exact hhigh

/-- Witness for the amended C9 at the regression fixture. -/
theorem calculateRank_total_on_nonneg_witness :
    (∃ l, (calculateRank input4).level = some l ∧ l ∈ LEVELS)
      ∧ 0 < (calculateRank input4).percentile
      ∧ (calculateRank input4).percentile ≤ 100 :=
  calculateRank_total_on_nonneg input4 (by norm_num [input4])
    (by norm_num [input4]) (by norm_num [input4]) (by norm_num [input4])
    (by norm_num [input4]) (by norm_num [input4])

/-- C9 counterexample: at stars `-51` (all other fields zero) the
percentile is `-1600`, far outside `[0, 100]` — the CDF shape does not
clamp negative inputs. -/
theorem calculateRank_negative_stars_out_of_range :
    (calculateRank wildStarsInput).percentile < 0 := by
  have hl : log_normal_cdf (0 : ℝ) = 0 := by
    rw [log_normal_cdf]
    norm_num
  have hs : log_normal_cdf ((-51 : ℝ) / 50) = 51 := by
    rw [log_normal_cdf]
    norm_num
  rw [calculateRank_percentile, rankValue_eq]
  simp only [wildStarsInput, zero_div, exponential_cdf_zero]
  rw [hs, hl]
  norm_num
